import Mathlib

/-!
Verification of the clerk-agent backend (`src/backend/main.py`) against its
natural-language specification.

The backend is shallowly embedded: the two database tables become lists of
records inside an explicit `Store` state, the auto-incremented primary key
becomes `nextId` (max of existing ids plus one, as the underlying storage
assigns it — no record is ever deleted, so ids are never reused), the PDF
produced by `download_certificate` becomes its list of text cells, the local
file written by that endpoint becomes an entry of a path-to-content map in
the state, and the outbound Mistral call becomes a pure function of the
remote's response, supplied as an oracle.
-/

/-- Payload of `POST /request_leave/` (pydantic model `LeaveRequest`). -/
structure LeaveRequest where
  employee_id : String
  leave_type : String
  start_date : String
  end_date : String
  reason : String
deriving DecidableEq

/-- A persisted row of the `leave_requests` table (`LeaveRequestDB`). -/
structure LeaveRequestDB where
  id : Nat
  employee_id : String
  leave_type : String
  start_date : String
  end_date : String
  reason : String
deriving DecidableEq

/-- Payload of `POST /generate_certificate/` (pydantic model `CertificateRequest`). -/
structure CertificateRequest where
  student_id : String
  certificate_type : String
deriving DecidableEq

/-- A persisted row of the `certificates` table (`CertificateRequestDB`). -/
structure CertificateRequestDB where
  id : Nat
  student_id : String
  certificate_type : String
deriving DecidableEq

/-- The persisted state: the two tables (rows in insertion order) and the
local filesystem that `download_certificate` writes PDF files into,
modelled as a path-to-textual-content association list. -/
structure Store where
  leave_requests : List LeaveRequestDB
  certificates : List CertificateRequestDB
  files : List (String × String)
deriving DecidableEq

def emptyStore : Store := { leave_requests := [], certificates := [], files := [] }

/-- The id the storage engine assigns to the next inserted row: one more
than the largest id present (auto-increment; tables start empty, no row is
ever deleted). -/
def nextId (ids : List Nat) : Nat := ids.foldr max 0 + 1

/-- `POST /request_leave/`: insert the payload as a new row with a
store-generated id, return the persisted row (what `db.refresh` makes the
handler return as `data`). -/
def request_leave (leave : LeaveRequest) (db : Store) : LeaveRequestDB × Store :=
  let entry : LeaveRequestDB :=
    { id := nextId (db.leave_requests.map LeaveRequestDB.id)
      employee_id := leave.employee_id
      leave_type := leave.leave_type
      start_date := leave.start_date
      end_date := leave.end_date
      reason := leave.reason }
  (entry, { db with leave_requests := db.leave_requests ++ [entry] })

/-- `GET /leave_requests/`: `db.query(LeaveRequestDB).all()`, all rows in
insertion order. -/
def get_leave_requests (db : Store) : List LeaveRequestDB := db.leave_requests

/-- `POST /generate_certificate/`: insert the payload as a new row with a
store-generated id, return the persisted row. -/
def generate_certificate (cert : CertificateRequest) (db : Store) :
    CertificateRequestDB × Store :=
  let entry : CertificateRequestDB :=
    { id := nextId (db.certificates.map CertificateRequestDB.id)
      student_id := cert.student_id
      certificate_type := cert.certificate_type }
  (entry, { db with certificates := db.certificates ++ [entry] })

/-- `GET /certificates/`: all certificate rows in insertion order. -/
def get_certificates (db : Store) : List CertificateRequestDB := db.certificates

/-- One `pdf.cell` call of the renderer: its text and its alignment flag. -/
structure PdfCell where
  txt : String
  align : String
deriving DecidableEq

/-- The PDF built inside `download_certificate`: two cells, both centered
(`align='C'`), a title naming the certificate type and a line naming the
recipient by student id. -/
def renderCertificatePdf (cert : CertificateRequestDB) : List PdfCell :=
  [{ txt := "Certificate of " ++ cert.certificate_type, align := "C" },
   { txt := "Issued to: " ++ cert.student_id, align := "C" }]

/-- The textual content of a rendered PDF: its cell texts, one per line
(each `pdf.cell` call uses `ln=True`, ending its line). -/
def pdfText : List PdfCell → String
  | [] => ""
  | c :: cs => c.txt ++ "\n" ++ pdfText cs

/-- An error raised to the client (`HTTPException`): status code and detail. -/
structure HTTPError where
  status_code : Nat
  detail : String
deriving DecidableEq

/-- Write `content` at `path`, overwriting any existing file (`pdf.output`). -/
def setFile (files : List (String × String)) (path content : String) :
    List (String × String) :=
  if files.any (fun f => f.1 = path) then
    files.map (fun f => if f.1 = path then (path, content) else f)
  else files ++ [(path, content)]

/-- `GET /download_certificate/{certificate_id}`: look up the first row with
the given id (`.filter(...).first()`); 404 if absent; otherwise render the
PDF, save it under `certificates/certificate_{id}.pdf`, and stream it back. -/
def download_certificate (certificate_id : Nat) (db : Store) :
    Except HTTPError (List PdfCell × Store) :=
  match db.certificates.find? (fun c => c.id == certificate_id) with
  | none => .error { status_code := 404, detail := "Certificate not found" }
  | some cert =>
    let pdf := renderCertificatePdf cert
    let file_path := "certificates/certificate_" ++ toString certificate_id ++ ".pdf"
    .ok (pdf, { db with files := setFile db.files file_path (pdfText pdf) })

/-- One chat turn of the proxied conversation. -/
structure ChatMessage where
  role : String
  content : String
deriving DecidableEq

/-- The outbound HTTP POST that `generate_response` issues to the Mistral
API: url, headers, and the JSON body's three fields. -/
structure OutboundRequest where
  url : String
  headers : List (String × String)
  model : String
  messages : List ChatMessage
  max_tokens : Nat
deriving DecidableEq

/-- How a Python f-string renders an optional environment value: the string
itself when set, the text `None` when unset. -/
def pyFormatOpt : Option String → String
  | none => "None"
  | some s => s

/-- The request `generate_response` builds: fixed url, bearer header from
`MISTRAL_API_KEY` (whatever it is), fixed model `mistral-tiny` and
`max_tokens` 150, messages forwarded verbatim. -/
def mistralRequest (key : Option String) (messages : List ChatMessage) :
    OutboundRequest :=
  { url := "https://api.mistral.ai/v1/chat/completions"
    headers := [("Authorization", "Bearer " ++ pyFormatOpt key),
                ("Content-Type", "application/json")]
    model := "mistral-tiny"
    messages := messages
    max_tokens := 150 }

/-- The remote's reply as `generate_response` inspects it: status code, raw
body text, and the parsed `choices` key — `none` when the key is absent,
otherwise the list of choice messages. -/
structure MistralHTTPResponse where
  status_code : Nat
  text : String
  choices : Option (List ChatMessage)
deriving DecidableEq

/-- `POST /generate-response/`: build the outbound request, issue it (the
network is the `remote` oracle), then: non-200 status raises with the
remote status and body; a present, non-empty `choices` yields the first
choice's message content; otherwise the fixed fallback string. -/
def generate_response (key : Option String) (messages : List ChatMessage)
    (remote : OutboundRequest → MistralHTTPResponse) : Except HTTPError String :=
  let response := remote (mistralRequest key messages)
  if response.status_code ≠ 200 then
    .error { status_code := response.status_code, detail := response.text }
  else
    match response.choices with
    | some (c :: _) => .ok c.content
    | _ => .ok "No response from Mistral."

/-- Startup configuration after `load_dotenv`: module-level code reads
`DATABASE_URL` and `MISTRAL_API_KEY` and raises iff `DATABASE_URL` is falsy
(unset or empty). `MISTRAL_API_KEY` is never checked. -/
structure Config where
  database_url : String
  mistral_api_key : Option String
deriving DecidableEq

/-- Python truthiness of an optional environment string: falsy when unset
or empty. -/
def pyTruthy : Option String → Bool
  | none => false
  | some s => s ≠ ""

/-- Module-level startup: `if not DATABASE_URL: raise ValueError(...)`. -/
def startup (database_url mistral_api_key : Option String) :
    Except String Config :=
  if pyTruthy database_url then
    .ok { database_url := database_url.getD "", mistral_api_key := mistral_api_key }
  else
    .error "DATABASE_URL is not set. Check your .env file."

/-- Submit a batch of leave payloads in order, collecting the records the
handler returned and the final state. -/
def submitLeaves : List LeaveRequest → Store → List LeaveRequestDB × Store
  | [], db => ([], db)
  | p :: ps, db =>
    let r := request_leave p db
    let rest := submitLeaves ps r.2
    (r.1 :: rest.1, rest.2)

/-- Submit a batch of certificate payloads in order, collecting the records
the handler returned and the final state. -/
def submitCerts : List CertificateRequest → Store → List CertificateRequestDB × Store
  | [], db => ([], db)
  | p :: ps, db =>
    let r := generate_certificate p db
    let rest := submitCerts ps r.2
    (r.1 :: rest.1, rest.2)

/-- `pat` occurs in `s` as a contiguous substring. -/
def containsText (s pat : String) : Prop := pat.data <:+: s.data

/-- Claim C4: submitting the leave payload `E1 / Sick / 2024-01-01 /
2024-01-03 / flu` as the first record into an empty store returns the
record with identifier 1 and all five submitted fields unchanged. -/
theorem first_leave_scenario :
    (request_leave
      { employee_id := "E1", leave_type := "Sick", start_date := "2024-01-01"
        end_date := "2024-01-03", reason := "flu" } emptyStore).1 =
    { id := 1, employee_id := "E1", leave_type := "Sick"
      start_date := "2024-01-01", end_date := "2024-01-03", reason := "flu" } := rfl

/-- Claim C10: when the remote answers 200 but the `choices` key is absent
altogether, the proxy still returns the fixed fallback string rather than
failing. -/
theorem choices_absent_fallback (key : Option String) (msgs : List ChatMessage)
    (body : String) :
    generate_response key msgs
      (fun _ => { status_code := 200, text := body, choices := none }) =
      .ok "No response from Mistral." := rfl

theorem request_leave_fst (leave : LeaveRequest) (db : Store) :
    (request_leave leave db).1 =
      { id := nextId (db.leave_requests.map LeaveRequestDB.id)
        employee_id := leave.employee_id, leave_type := leave.leave_type
        start_date := leave.start_date, end_date := leave.end_date
        reason := leave.reason } := rfl

theorem request_leave_snd (leave : LeaveRequest) (db : Store) :
    (request_leave leave db).2 =
      { db with leave_requests := db.leave_requests ++ [(request_leave leave db).1] } := rfl

theorem generate_certificate_fst (cert : CertificateRequest) (db : Store) :
    (generate_certificate cert db).1 =
      { id := nextId (db.certificates.map CertificateRequestDB.id)
        student_id := cert.student_id
        certificate_type := cert.certificate_type } := rfl

theorem generate_certificate_snd (cert : CertificateRequest) (db : Store) :
    (generate_certificate cert db).2 =
      { db with certificates := db.certificates ++ [(generate_certificate cert db).1] } := rfl

theorem mem_le_foldr_max (x : Nat) (ids : List Nat) (h : x ∈ ids) :
    x ≤ ids.foldr max 0 := by
  induction ids with
  | nil => cases h
  | cons a t ih =>
    simp only [List.foldr_cons]
    cases h with
    | head => exact le_max_left _ _
    | tail _ h => exact le_trans (ih h) (le_max_right _ _)

theorem submitLeaves_get (ps : List LeaveRequest) (db : Store) :
    get_leave_requests (submitLeaves ps db).2 =
      get_leave_requests db ++ (submitLeaves ps db).1 := by
  induction ps generalizing db with
  | nil => simp [submitLeaves, get_leave_requests]
  | cons p ps ih =>
    simp only [submitLeaves]
    rw [ih]
    simp [get_leave_requests, request_leave]

theorem submitLeaves_length (ps : List LeaveRequest) (db : Store) :
    (submitLeaves ps db).1.length = ps.length := by
  induction ps generalizing db with
  | nil => rfl
  | cons p ps ih => simp [submitLeaves, ih]

theorem submitCerts_get (qs : List CertificateRequest) (db : Store) :
    get_certificates (submitCerts qs db).2 =
      get_certificates db ++ (submitCerts qs db).1 := by
  induction qs generalizing db with
  | nil => simp [submitCerts, get_certificates]
  | cons q qs ih =>
    simp only [submitCerts]
    rw [ih]
    simp [get_certificates, generate_certificate]

theorem submitCerts_length (qs : List CertificateRequest) (db : Store) :
    (submitCerts qs db).1.length = qs.length := by
  induction qs generalizing db with
  | nil => rfl
  | cons q qs ih => simp [submitCerts, ih]

/-- Claim C1: after any sequence of `N` successful leave (resp. certificate)
submits into an empty store, the list endpoint returns exactly `N` records,
and the returned sequence is the sequence of records the submits returned,
in order. -/
theorem list_after_submits (ps : List LeaveRequest) (qs : List CertificateRequest) :
    get_leave_requests (submitLeaves ps emptyStore).2 = (submitLeaves ps emptyStore).1 ∧
    (submitLeaves ps emptyStore).1.length = ps.length ∧
    get_certificates (submitCerts qs emptyStore).2 = (submitCerts qs emptyStore).1 ∧
    (submitCerts qs emptyStore).1.length = qs.length := by
  refine ⟨?_, submitLeaves_length ps emptyStore, ?_, submitCerts_length qs emptyStore⟩
  · simpa [get_leave_requests, emptyStore] using submitLeaves_get ps emptyStore
  · simpa [get_certificates, emptyStore] using submitCerts_get qs emptyStore

/-- Claim C2: a submitted record's store-generated identifier is strictly
greater than the identifier of every record of that kind created earlier,
hence distinct from all of them and never a reused value. -/
theorem submit_identifier_fresh (leave : LeaveRequest) (cert : CertificateRequest)
    (db : Store) :
    (∀ r ∈ db.leave_requests, r.id < (request_leave leave db).1.id) ∧
    (∀ c ∈ db.certificates, c.id < (generate_certificate cert db).1.id) := by
  constructor
  · intro r hr
    have hle : r.id ≤ (db.leave_requests.map LeaveRequestDB.id).foldr max 0 :=
      mem_le_foldr_max _ _ (List.mem_map_of_mem _ hr)
    rw [request_leave_fst]
    exact Nat.lt_succ_of_le hle
  · intro c hc
    have hle : c.id ≤ (db.certificates.map CertificateRequestDB.id).foldr max 0 :=
      mem_le_foldr_max _ _ (List.mem_map_of_mem _ hc)
    rw [generate_certificate_fst]
    exact Nat.lt_succ_of_le hle

def storeOneEach : Store :=
  { leave_requests := [{ id := 1, employee_id := "E1", leave_type := "Sick"
                         start_date := "2024-01-01", end_date := "2024-01-03"
                         reason := "flu" }]
    certificates := [{ id := 1, student_id := "S1", certificate_type := "Bonafide" }]
    files := [] }

theorem submit_identifier_fresh_witness :
    1 < (request_leave { employee_id := "E2", leave_type := "Casual"
                         start_date := "2024-02-01", end_date := "2024-02-02"
                         reason := "trip" } storeOneEach).1.id ∧
    1 < (generate_certificate { student_id := "S2", certificate_type := "NOC" }
          storeOneEach).1.id :=
  ⟨(submit_identifier_fresh
      { employee_id := "E2", leave_type := "Casual", start_date := "2024-02-01"
        end_date := "2024-02-02", reason := "trip" }
      { student_id := "S2", certificate_type := "NOC" } storeOneEach).1
      _ (List.Mem.head _),
   (submit_identifier_fresh
      { employee_id := "E2", leave_type := "Casual", start_date := "2024-02-01"
        end_date := "2024-02-02", reason := "trip" }
      { student_id := "S2", certificate_type := "NOC" } storeOneEach).2
      _ (List.Mem.head _)⟩

/-- Claim C3: downloading a certificate whose identifier was never issued
signals a client-visible 404 and produces no document. -/
theorem download_absent_not_found (db : Store) (cid : Nat)
    (h : cid ∉ db.certificates.map CertificateRequestDB.id) :
    download_certificate cid db =
      .error { status_code := 404, detail := "Certificate not found" } := by
  have hf : db.certificates.find? (fun c => c.id == cid) = none := by
    rw [List.find?_eq_none]
    intro c hc
    simp only [beq_iff_eq]
    intro hcc
    exact h (hcc ▸ List.mem_map_of_mem CertificateRequestDB.id hc)
  simp [download_certificate, hf]

theorem download_absent_not_found_witness :
    (2 : Nat) ∉ storeOneEach.certificates.map CertificateRequestDB.id ∧
    download_certificate 2 storeOneEach =
      .error { status_code := 404, detail := "Certificate not found" } :=
  ⟨by decide, download_absent_not_found storeOneEach 2 (by decide)⟩

/-- Claim C5: the chat proxy extracts the first completion's text on a 200
response with at least one completion, returns the fixed fallback string on
a 200 response with zero completions, and raises with the remote status
code and body on any non-200 status. -/
theorem chat_proxy_reply (key : Option String) (msgs : List ChatMessage)
    (resp : MistralHTTPResponse) :
    (∀ c rest, resp.status_code = 200 → resp.choices = some (c :: rest) →
      generate_response key msgs (fun _ => resp) = .ok c.content) ∧
    (resp.status_code = 200 → resp.choices = some [] →
      generate_response key msgs (fun _ => resp) = .ok "No response from Mistral.") ∧
    (resp.status_code ≠ 200 →
      generate_response key msgs (fun _ => resp) =
        .error { status_code := resp.status_code, detail := resp.text }) := by
  refine ⟨?_, ?_, ?_⟩
  · intro c rest h200 hch
    simp [generate_response, h200, hch]
  · intro h200 hch
    simp [generate_response, h200, hch]
  · intro hne
    simp [generate_response, hne]

theorem chat_proxy_reply_witness :
    generate_response (some "k") [{ role := "user", content := "hi" }]
      (fun _ => { status_code := 200, text := "raw"
                  choices := some [{ role := "assistant", content := "Hello" }] }) =
      .ok "Hello" ∧
    generate_response (some "k") []
      (fun _ => { status_code := 200, text := "raw", choices := some [] }) =
      .ok "No response from Mistral." ∧
    generate_response (some "k") []
      (fun _ => { status_code := 500, text := "oops", choices := none }) =
      .error { status_code := 500, detail := "oops" } :=
  ⟨(chat_proxy_reply (some "k") [{ role := "user", content := "hi" }]
      { status_code := 200, text := "raw"
        choices := some [{ role := "assistant", content := "Hello" }] }).1
      { role := "assistant", content := "Hello" } [] rfl rfl,
   (chat_proxy_reply (some "k") []
      { status_code := 200, text := "raw", choices := some [] }).2.1 rfl rfl,
   (chat_proxy_reply (some "k") []
      { status_code := 500, text := "oops", choices := none }).2.2 (by decide)⟩

/-- Claim C6: every rendered certificate document consists of exactly two
centered text lines whose content names the certificate type and the
student; concretely, creating `S1 / Bonafide` and downloading its id yields
a document whose textual content includes `Bonafide` and `S1`. -/
theorem certificate_document_content :
    (∀ cert : CertificateRequestDB,
      (renderCertificatePdf cert).length = 2 ∧
      (∀ cell ∈ renderCertificatePdf cert, cell.align = "C") ∧
      containsText (pdfText (renderCertificatePdf cert)) cert.certificate_type ∧
      containsText (pdfText (renderCertificatePdf cert)) cert.student_id) ∧
    (∃ doc db',
      download_certificate
        (generate_certificate { student_id := "S1", certificate_type := "Bonafide" }
          emptyStore).1.id
        (generate_certificate { student_id := "S1", certificate_type := "Bonafide" }
          emptyStore).2 = .ok (doc, db') ∧
      containsText (pdfText doc) "Bonafide" ∧ containsText (pdfText doc) "S1") := by
  constructor
  · intro cert
    refine ⟨rfl, ?_, ?_, ?_⟩
    · intro cell hcell
      simp only [renderCertificatePdf, List.mem_cons, List.not_mem_nil, or_false] at hcell
      rcases hcell with h | h <;> subst h <;> rfl
    · refine ⟨"Certificate of ".data,
        ("\n" ++ "Issued to: " ++ cert.student_id ++ "\n").data, ?_⟩
      simp [pdfText, renderCertificatePdf, containsText]
    · refine ⟨("Certificate of " ++ cert.certificate_type ++ "\n" ++ "Issued to: ").data,
        "\n".data, ?_⟩
      simp [pdfText, renderCertificatePdf, containsText]
  · refine ⟨[{ txt := "Certificate of Bonafide", align := "C" },
             { txt := "Issued to: S1", align := "C" }], _, rfl, ?_, ?_⟩
    · exact ⟨"Certificate of ".data, "\nIssued to: S1\n".data, by decide⟩
    · exact ⟨"Certificate of Bonafide\nIssued to: ".data, "\n".data, by decide⟩

theorem certificate_document_content_witness :
    containsText
      (pdfText (renderCertificatePdf
        { id := 1, student_id := "S1", certificate_type := "Bonafide" }))
      "Bonafide" :=
  (certificate_document_content.1
    { id := 1, student_id := "S1", certificate_type := "Bonafide" }).2.2.1

/-- Claim C7: the renderer is deterministic in content — if downloading a
certificate succeeds, downloading the same identifier again from the state
the first call produced succeeds and returns the very same document. -/
theorem render_repeat_stable (cid : Nat) (db : Store) (doc : List PdfCell)
    (db' : Store) (h : download_certificate cid db = .ok (doc, db')) :
    (download_certificate cid db').toOption.map Prod.fst = some doc := by
  unfold download_certificate at h ⊢
  cases hf : db.certificates.find? (fun c => c.id == cid) with
  | none => rw [hf] at h; exact absurd h (by simp)
  | some cert =>
    rw [hf] at h
    simp only [Except.ok.injEq, Prod.mk.injEq] at h
    obtain ⟨hdoc, hdb'⟩ := h
    subst hdb'
    simp only []
    rw [show ({ db with
        files := setFile db.files
          ("certificates/certificate_" ++ toString cid ++ ".pdf")
          (pdfText (renderCertificatePdf cert)) } : Store).certificates
        = db.certificates from rfl, hf]
    simp only [hdoc]
    rfl

theorem render_repeat_stable_witness :
    (download_certificate 1
      { storeOneEach with
        files := [("certificates/certificate_1.pdf",
                   "Certificate of Bonafide\nIssued to: S1\n")] }).toOption.map
      Prod.fst =
      some [{ txt := "Certificate of Bonafide", align := "C" },
            { txt := "Issued to: S1", align := "C" }] :=
  render_repeat_stable 1 storeOneEach
    [{ txt := "Certificate of Bonafide", align := "C" },
     { txt := "Issued to: S1", align := "C" }]
    { storeOneEach with
      files := [("certificates/certificate_1.pdf",
                 "Certificate of Bonafide\nIssued to: S1\n")] } rfl

/-- Claim C8 as stated is false: `download_certificate` is not read-only on
the whole state. On a store holding certificate 1 and no files, a
successful download returns a state that differs from the input state — the
endpoint saves the rendered PDF under `certificates/certificate_1.pdf`
before streaming it. -/
theorem download_certificate_writes_file :
    download_certificate 1 storeOneEach =
      .ok ([{ txt := "Certificate of Bonafide", align := "C" },
            { txt := "Issued to: S1", align := "C" }],
           { storeOneEach with
             files := [("certificates/certificate_1.pdf",
                        "Certificate of Bonafide\nIssued to: S1\n")] }) ∧
    ({ storeOneEach with
       files := [("certificates/certificate_1.pdf",
                  "Certificate of Bonafide\nIssued to: S1\n")] } : Store) ≠
      storeOneEach := by
  refine ⟨rfl, ?_⟩
  intro hcl
  have : ([("certificates/certificate_1.pdf",
            "Certificate of Bonafide\nIssued to: S1\n")] :
           List (String × String)) = [] := congrArg Store.files hcl
  exact List.cons_ne_nil _ _ this

/-- Claim C8 amended: the two list endpoints are pure reads (they return
data and cannot change the state), the submit endpoints write only to their
own table, and a successful `download_certificate` leaves both tables
unchanged — its only write is the rendered document file it saves outside
the tables. -/
theorem reads_preserve_tables (db : Store) (cid : Nat) (doc : List PdfCell)
    (db' : Store) (leave : LeaveRequest) (cert : CertificateRequest)
    (h : download_certificate cid db = .ok (doc, db')) :
    db'.leave_requests = db.leave_requests ∧
    db'.certificates = db.certificates ∧
    db'.files = setFile db.files
      ("certificates/certificate_" ++ toString cid ++ ".pdf") (pdfText doc) ∧
    (request_leave leave db).2.certificates = db.certificates ∧
    (request_leave leave db).2.files = db.files ∧
    (generate_certificate cert db).2.leave_requests = db.leave_requests ∧
    (generate_certificate cert db).2.files = db.files := by
  unfold download_certificate at h
  cases hf : db.certificates.find? (fun c => c.id == cid) with
  | none => rw [hf] at h; exact absurd h (by simp)
  | some c =>
    rw [hf] at h
    simp only [Except.ok.injEq, Prod.mk.injEq] at h
    obtain ⟨hdoc, hdb'⟩ := h
    subst hdoc
    subst hdb'
    exact ⟨rfl, rfl, rfl, rfl, rfl, rfl, rfl⟩

theorem reads_preserve_tables_witness :
    ({ storeOneEach with
       files := [("certificates/certificate_1.pdf",
                  "Certificate of Bonafide\nIssued to: S1\n")] } : Store).leave_requests =
      storeOneEach.leave_requests ∧
    ({ storeOneEach with
       files := [("certificates/certificate_1.pdf",
                  "Certificate of Bonafide\nIssued to: S1\n")] } : Store).certificates =
      storeOneEach.certificates ∧
    ({ storeOneEach with
       files := [("certificates/certificate_1.pdf",
                  "Certificate of Bonafide\nIssued to: S1\n")] } : Store).files =
      setFile storeOneEach.files ("certificates/certificate_" ++ toString 1 ++ ".pdf")
        (pdfText [{ txt := "Certificate of Bonafide", align := "C" },
                  { txt := "Issued to: S1", align := "C" }]) ∧
    (request_leave { employee_id := "E2", leave_type := "Casual"
                     start_date := "2024-02-01", end_date := "2024-02-02"
                     reason := "trip" } storeOneEach).2.certificates =
      storeOneEach.certificates ∧
    (request_leave { employee_id := "E2", leave_type := "Casual"
                     start_date := "2024-02-01", end_date := "2024-02-02"
                     reason := "trip" } storeOneEach).2.files = storeOneEach.files ∧
    (generate_certificate { student_id := "S2", certificate_type := "NOC" }
        storeOneEach).2.leave_requests = storeOneEach.leave_requests ∧
    (generate_certificate { student_id := "S2", certificate_type := "NOC" }
        storeOneEach).2.files = storeOneEach.files :=
  reads_preserve_tables storeOneEach 1
    [{ txt := "Certificate of Bonafide", align := "C" },
     { txt := "Issued to: S1", align := "C" }]
    { storeOneEach with
      files := [("certificates/certificate_1.pdf",
                 "Certificate of Bonafide\nIssued to: S1\n")] }
    { employee_id := "E2", leave_type := "Casual", start_date := "2024-02-01"
      end_date := "2024-02-02", reason := "trip" }
    { student_id := "S2", certificate_type := "NOC" } rfl

/-- Claim C9: startup raises only when `DATABASE_URL` is falsy; with a set,
non-empty connection string and `MISTRAL_API_KEY` unset, startup succeeds,
and the chat proxy still builds its outbound request — with the malformed
authorization header `Bearer None` rendered from the missing credential. -/
theorem startup_missing_key (url : String) (h : url ≠ "") (key : Option String)
    (msgs : List ChatMessage) :
    startup (some url) none =
      .ok { database_url := url, mistral_api_key := none } ∧
    startup none key = .error "DATABASE_URL is not set. Check your .env file." ∧
    (mistralRequest none msgs).headers =
      [("Authorization", "Bearer None"), ("Content-Type", "application/json")] := by
  refine ⟨?_, rfl, rfl⟩
  simp [startup, pyTruthy, h]

theorem startup_missing_key_witness :
    startup (some "sqlite:///clerk.db") none =
      .ok { database_url := "sqlite:///clerk.db", mistral_api_key := none } ∧
    startup none (some "sk-123") =
      .error "DATABASE_URL is not set. Check your .env file." ∧
    (mistralRequest none [{ role := "user", content := "hi" }]).headers =
      [("Authorization", "Bearer None"), ("Content-Type", "application/json")] :=
  startup_missing_key "sqlite:///clerk.db" (by decide) (some "sk-123")
    [{ role := "user", content := "hi" }]
